import Mathlib

/-!
Shallow embedding of `src/wiresense/wiresense.py` (the Wiresense telemetry
library): the sensor registry (`Wiresense.__init__`), the per-sensor CSV log,
the WebSocket subscriber set and its `_broadcast` fan-out, the HTTP log
retrieval handler `_handle_http_request`, and the server lifecycle
(`Wiresense.config` / `_run_async_server` / `Wiresense.execute`).

Python strings are modelled as Lean `String` (operating on their character
lists, with structural recursion so that everything kernel-evaluates);
Python's `dict` readings are modelled as association lists in insertion
order (`list(d.keys())` / `list(d.values())` enumerate in insertion order);
scalar reading values are modelled by `PyVal` (strings and integers);
the file system is an association list from path to the list of CSV rows;
each sensor's opaque `exec_function` is modelled as a function from the
invocation index to the produced result, together with a per-sensor
invocation counter, so that "the reader is invoked once" is observable.
-/

/-- Decidable equality for `Except`, used to evaluate the model's results
on concrete inputs. -/
instance {ε α : Type} [DecidableEq ε] [DecidableEq α] : DecidableEq (Except ε α)
  | .ok a, .ok b =>
    if h : a = b then .isTrue (by rw [h]) else .isFalse (by intro hh; cases hh; exact h rfl)
  | .error a, .error b =>
    if h : a = b then .isTrue (by rw [h]) else .isFalse (by intro hh; cases hh; exact h rfl)
  | .ok _, .error _ => .isFalse (by intro h; cases h)
  | .error _, .ok _ => .isFalse (by intro h; cases h)

namespace Wiresense

/-- Scalar value of a reading, as produced by a sensor's reader function. -/
inductive PyVal where
  | s (v : String)
  | i (v : Int)
deriving DecidableEq

/-- Models Python `str()` on a scalar reading value. -/
def pyStr : PyVal → String
  | .s v => v
  | .i v => toString v

/-- Models Python `str.replace` for a single-character pattern: every
occurrence of `c` is replaced by `rep`. -/
def replaceChar (c : Char) (rep : List Char) : List Char → List Char
  | [] => []
  | x :: xs => if x = c then rep ++ replaceChar c rep xs else x :: replaceChar c rep xs

/-- Models Python `str.split` with a single-character separator: splits at
every occurrence, keeping empty segments, and maps `""` to `[""]`. -/
def splitChar (c : Char) : List Char → List (List Char)
  | [] => [[]]
  | x :: xs =>
    let r := splitChar c xs
    if x = c then [] :: r
    else
      match r with
      | [] => [[x]]
      | y :: ys => (x :: y) :: ys

/-- Index of the last occurrence of `c`, models Python `str.rfind`. -/
def lastIndexOf (c : Char) : List Char → Option Nat
  | [] => none
  | x :: xs =>
    match lastIndexOf c xs with
    | some i => some (i + 1)
    | none => if x = c then some 0 else none

/-- Models `os.path.splitext` on the basename: the extension starts at the
last dot, provided some non-dot character precedes it in the basename. -/
def splitextBase (bn : List Char) : List Char × List Char :=
  match lastIndexOf '.' bn with
  | none => (bn, [])
  | some d =>
    if (bn.take d).any (fun ch => ch ≠ '.') then (bn.take d, bn.drop d) else (bn, [])

/-- Models `os.path.splitext` (POSIX separator `/`). -/
def splitext (p : String) : String × String :=
  let cs := p.toList
  let si : Nat :=
    match lastIndexOf '/' cs with
    | none => 0
    | some i => i + 1
  let be := splitextBase (cs.drop si)
  (String.mk (cs.take si ++ be.1), String.mk be.2)

/-- Lowercase hexadecimal digit. -/
def hexDigit (n : Nat) : Char :=
  if n < 10 then Char.ofNat (48 + n) else Char.ofNat (87 + n)

/-- Four lowercase hexadecimal digits, as in Python's `\uXXXX` escapes. -/
def hex4 (n : Nat) : String :=
  String.mk [hexDigit (n / 4096 % 16), hexDigit (n / 256 % 16), hexDigit (n / 16 % 16), hexDigit (n % 16)]

/-- Models the `\uXXXX` escape of `json.dumps` with `ensure_ascii=True`,
using a surrogate pair for code points above `0xFFFF`. -/
def uescape (n : Nat) : String :=
  if n < 65536 then "\\u" ++ hex4 n
  else
    let m := n - 65536
    "\\u" ++ hex4 (55296 + m / 1024) ++ "\\u" ++ hex4 (56320 + m % 1024)

/-- Models the per-character escaping of `json.dumps` (default
`ensure_ascii=True`): short escapes for quote, backslash and the usual
control characters, `\uXXXX` for other non-printable or non-ASCII characters. -/
def jsonEscapeChar (c : Char) : String :=
  if c = '"' then "\\\""
  else if c = '\\' then "\\\\"
  else if c = '\n' then "\\n"
  else if c = '\r' then "\\r"
  else if c = '\t' then "\\t"
  else if c.toNat = 8 then "\\b"
  else if c.toNat = 12 then "\\f"
  else if c.toNat < 32 ∨ 127 ≤ c.toNat then uescape c.toNat
  else String.singleton c

/-- Models `json.dumps` on a string: quoted, characters escaped. -/
def jsonString (s : String) : String :=
  "\"" ++ String.join (s.toList.map jsonEscapeChar) ++ "\""

/-- Models `json.dumps` on a scalar reading value. -/
def jsonOfPyVal : PyVal → String
  | .s v => jsonString v
  | .i v => toString v

/-- Models `json.dumps` on a flat object, keys in insertion order, with the
default separators `", "` and `": "`. -/
def jsonObj (es : List (String × PyVal)) : String :=
  "\x7b" ++ String.intercalate ", " (es.map fun kv => jsonString kv.1 ++ ": " ++ jsonOfPyVal kv.2) ++ "\x7d"

/-- Models `json.dumps({"key": name, "data": data})` as built by
`Wiresense.execute` (line 101 and 108 of the source). -/
def jsonDumpsPayload (name : String) (es : List (String × PyVal)) : String :=
  "\x7b\"key\": " ++ jsonString name ++ ", \"data\": " ++ jsonObj es ++ "\x7d"

/-- Models the `QUOTE_MINIMAL` quoting of Python's `csv.writer`: a field is
quoted exactly when it contains the delimiter, the quote character, or a
line-terminator character, and inner quotes are doubled. -/
def csvQuoteField (f : String) : String :=
  if f.toList.any (fun c => c == ',' || c == '"' || c == '\r' || c == '\n') then
    "\"" ++ String.mk (replaceChar '"' ['"', '"'] f.toList) ++ "\""
  else f

/-- Models `csv.writer(...).writerow(fields)`: quoted fields joined by the
delimiter (the uniform `\r\n` row terminator is left implicit in the file
model, which stores a list of rows). -/
def csvRow (fields : List String) : String :=
  String.intercalate "," (fields.map csvQuoteField)

/-- File system model: an association list from file path to the list of
CSV rows stored in the file. -/
abbrev FS := List (String × List String)

/-- Content of the file at `p`, if it exists. -/
def fsRead : FS → String → Option (List String)
  | [], _ => none
  | (q, r) :: rest, p => if q = p then some r else fsRead rest p

/-- Models `open(p, mode="w")` followed by writing `rows`: truncates an
existing file or creates a new one. -/
def fsWrite : FS → String → List String → FS
  | [], p, rows => [(p, rows)]
  | (q, r) :: rest, p, rows =>
    if q = p then (q, rows) :: rest else (q, r) :: fsWrite rest p rows

/-- Models `open(p, mode="a")` followed by writing one row: appends to an
existing file or creates a new one. -/
def fsAppend : FS → String → String → FS
  | [], p, row => [(p, [row])]
  | (q, r) :: rest, p, row =>
    if q = p then (q, r ++ [row]) :: rest else (q, r) :: fsAppend rest p row

/-- A WebSocket subscriber: `broken` models a channel on which
`ws.send_str` raises, `inbox` records the messages actually delivered. -/
structure Subscriber where
  id : Nat
  broken : Bool
  inbox : List String
deriving DecidableEq

/-- Models `_broadcast` (source lines 217-218): iterate over the
connection set, awaiting `ws.send_str(message)` on each member in turn.
The loop body has no exception handling, so a failing send raises out of
the loop: the result's second component records whether an exception was
raised, and on failure the members not yet reached keep their inboxes and
every member (including the failing one) stays in the set. -/
def broadcastGo : List Subscriber → String → List Subscriber × Bool
  | [], _ => ([], false)
  | sub :: rest, msg =>
    if sub.broken then (sub :: rest, true)
    else
      let r := broadcastGo rest msg
      ({ sub with inbox := sub.inbox ++ [msg] } :: r.1, r.2)

/-- Result of one invocation of a sensor's `exec_function`: either a flat
mapping (in insertion order; possibly empty) or a non-mapping value. -/
inductive ReaderResult where
  | mapping (entries : List (String × PyVal))
  | nonMapping
deriving DecidableEq

/-- A registry entry (one `Wiresense` instance). `csvFilePath = none`
models an instance on which `__init__` raised before assigning
`csv_file_path` (the attribute is missing). `reader` gives the result of
the `callCount`-th invocation of the sensor's `exec_function`. -/
structure Sensor where
  name : String
  reader : Nat → ReaderResult
  baseFilePath : String
  csvFilePath : Option String
  callCount : Nat

/-- Process-wide state: the class-level registry `Wiresense.sensors`, the
`Wiresense.configured` flag, the number of bound listening endpoints, the
module-level `active_connections` set (as a list in iteration order), and
the file system. -/
structure WState where
  sensors : List Sensor
  configured : Bool
  boundEndpoints : Nat
  activeConnections : List Subscriber
  fs : FS

/-- The empty initial process state. -/
def emptyState : WState :=
  { sensors := [], configured := false, boundEndpoints := 0, activeConnections := [], fs := [] }

/-- The three `ValueError`s raised by `Wiresense.__init__`, distinguished
by their messages (the spec names them `DuplicateNameError`,
`InvalidNameError`, `InvalidReadingError`). -/
inductive RegError where
  | duplicateName
  | invalidName
  | invalidReading
deriving DecidableEq

/-- Models `Wiresense.__init__` (source lines 29-68), i.e. the spec's
`register`. Order of effects follows the source: duplicate-name check,
forbidden-character check, append of `self` to `Wiresense.sensors`
(line 51, before the reader is validated), one invocation of
`exec_function` (line 54), validation, then computation of the CSV path
from `os.path.splitext` plus the creation timestamp and creation of the
file with its header row. On a validation failure the partially
initialized instance (no `csv_file_path` attribute) remains in the
registry. Directory creation (`os.makedirs`) is not modelled: the file
model tracks files only. -/
def init (st : WState) (name : String) (reader : Nat → ReaderResult)
    (basePath : String) (now : Nat) : WState × Option RegError :=
  if st.sensors.any (fun s => s.name == name) then (st, some .duplicateName)
  else if name.toList.any (fun c => c == '\n' || c == '\r') then (st, some .invalidName)
  else
    let par : Sensor :=
      { name := name, reader := reader, baseFilePath := basePath,
        csvFilePath := none, callCount := 1 }
    match reader 0 with
    | .nonMapping => ({ st with sensors := st.sensors ++ [par] }, some .invalidReading)
    | .mapping es =>
      if es.isEmpty then ({ st with sensors := st.sensors ++ [par] }, some .invalidReading)
      else
        let be := splitext basePath
        let fp := be.1 ++ "_" ++ toString now ++ be.2
        let full : Sensor :=
          { name := name, reader := reader, baseFilePath := basePath,
            csvFilePath := some fp, callCount := 1 }
        ({ st with
             sensors := st.sensors ++ [full],
             fs := fsWrite st.fs fp [csvRow ("timestamp" :: es.map (fun kv => kv.1))] },
         none)

/-- Chronological effects of `Wiresense.config` / `_run_async_server`:
`bindEndpoint` models `site.start()` (line 239), `setConfiguredFlag`
models the assignment `Wiresense.configured = True` (line 241), which the
source performs only after the site has started; `logAlreadyConfigured`
models the `"Server already configured"` log line of the else branch. -/
inductive ServerEvent where
  | bindEndpoint
  | setConfiguredFlag
  | logAlreadyConfigured
deriving DecidableEq

/-- Models `Wiresense.config` (source lines 70-84) together with the
awaited `_run_async_server` (lines 222-242): if not yet configured, bind
one listening endpoint and then set the configured flag; otherwise log and
do nothing. The returned event list is in chronological order. -/
def config (st : WState) : WState × List ServerEvent :=
  if !st.configured then
    ({ st with boundEndpoints := st.boundEndpoints + 1, configured := true },
     [.bindEndpoint, .setConfiguredFlag])
  else (st, [.logAlreadyConfigured])

/-- Errors raised out of `Wiresense.execute`: the `RuntimeError` of the
configured-flag guard, the `ValueError` of reading validation, the
`AttributeError` on a partially initialized instance with no
`csv_file_path`, and an exception propagating out of `ws.send_str` during
`_broadcast`. `badHandle` is an artifact of indexing the registry in the
model and corresponds to no Python behaviour (theorems always supply a
valid index). -/
inductive ExecError where
  | notConfigured
  | invalidReading
  | attrMissing
  | sendFailed
  | badHandle
deriving DecidableEq

/-- Models `Wiresense.execute` (source lines 86-111) on the sensor at
index `i` of the registry, at current unix time `now`: guard on the
configured flag, one invocation of `exec_function`, validation, CSV append
of `[timestamp] + list(data.values())`, `json.dumps` of
`{"key": name, "data": data}`, then `_broadcast` of the payload string,
which is also returned. -/
def execute (st : WState) (i : Nat) (now : Nat) : WState × Except ExecError String :=
  if !st.configured then (st, .error .notConfigured)
  else
    match st.sensors[i]? with
    | none => (st, .error .badHandle)
    | some s =>
      let data := s.reader s.callCount
      let st1 : WState := { st with sensors := st.sensors.set i { s with callCount := s.callCount + 1 } }
      match data with
      | .nonMapping => (st1, .error .invalidReading)
      | .mapping es =>
        if es.isEmpty then (st1, .error .invalidReading)
        else
          let payload := jsonDumpsPayload s.name es
          match s.csvFilePath with
          | none => (st1, .error .attrMissing)
          | some fp =>
            let st2 : WState :=
              { st1 with fs := fsAppend st1.fs fp (csvRow (toString now :: es.map (fun kv => pyStr kv.2))) }
            let br := broadcastGo st2.activeConnections payload
            let st3 : WState := { st2 with activeConnections := br.1 }
            if br.2 then (st3, .error .sendFailed) else (st3, .ok payload)

/-- Models the list comprehension of `_handle_http_request` (source line
129): the `csv_file_path` attribute of every registry member whose name
equals `n`, in registry order; accessing the attribute of a partially
initialized member raises `AttributeError`, modelled by `.error ()`. -/
def collectPaths (n : String) : List Sensor → Except Unit (List String)
  | [] => .ok []
  | s :: rest =>
    if s.name = n then
      match s.csvFilePath with
      | none => .error ()
      | some fp =>
        match collectPaths n rest with
        | .error e => .error e
        | .ok l => .ok (fp :: l)
    else collectPaths n rest

/-- HTTP response of the retrieval endpoint: `ok` carries the content type
and the served file's rows; `notFound` models `HTTPNotFound` (404);
`internalError` models `HTTPInternalServerError` as well as the 500 the
framework produces for an unhandled exception or a handler returning
`None`. -/
inductive HttpResponse where
  | ok (contentType : String) (body : List String)
  | notFound
  | internalError
deriving DecidableEq

/-- Models the escaping of raw carriage-return and line-feed characters in
the request path (source line 123): `"\r"` then `"\n"` are replaced by the
two-character sequences backslash-`r` and backslash-`n`. -/
def escapePathChars (cs : List Char) : List Char :=
  replaceChar '\n' ['\\', 'n'] (replaceChar '\r' ['\\', 'r'] cs)

/-- Models `_handle_http_request` (source lines 114-143): escape CR/LF in
the path, split on `/`, require exactly two segments the second of which
is `data.csv`, look up the first segment in the registry, then serve the
sensor's CSV file with content type `text/csv` if it exists on storage,
500 if it does not, and 404 when the path does not match the pattern or no
sensor has that name. An empty stored path makes the handler return
`None` (falsy `file_path`), which the framework turns into a 500. -/
def handleHttpRequest (st : WState) (path : String) : HttpResponse :=
  let parts := splitChar '/' (escapePathChars path.toList)
  match parts with
  | [n, tl] =>
    if String.mk tl = "data.csv" then
      match collectPaths (String.mk n) st.sensors with
      | .error _ => .internalError
      | .ok [] => .notFound
      | .ok (fp :: _) =>
        if fp = "" then .internalError
        else
          match fsRead st.fs fp with
          | some rows => .ok "text/csv" rows
          | none => .internalError
    else .notFound
  | _ => .notFound

end Wiresense

namespace Wiresense

/-! Concrete fixtures used to instantiate the theorems below. -/

/-- A reader producing `{"c": 21}` on its first invocation and `{"c": 22}`
afterwards. -/
def tReader : Nat → ReaderResult := fun n =>
  if n = 0 then .mapping [("c", .i 21)] else .mapping [("c", .i 22)]

/-- The registry entry produced by a successful registration of `"temp"`
with base path `"data/temp.csv"` at creation time 42. -/
def tempRegSensor : Sensor :=
  { name := "temp", reader := tReader, baseFilePath := "data/temp.csv",
    csvFilePath := some "data/temp_42.csv", callCount := 1 }

/-- A reader that always returns the empty mapping. -/
def emptyReader : Nat → ReaderResult := fun _ => .mapping []

/-- A reader whose first reading is `{"a": 1, "b": 2}` and whose later
readings are `{"b": 5, "a": 4}`, i.e. the same keys in a different
insertion order. -/
def flipReader : Nat → ReaderResult := fun n =>
  if n = 0 then .mapping [("a", .i 1), ("b", .i 2)]
  else .mapping [("b", .i 5), ("a", .i 4)]

/-- Registry entry for the `flipReader` sensor. -/
def flipSensor : Sensor :=
  { name := "flip", reader := flipReader, baseFilePath := "d/s.csv",
    csvFilePath := some "d/s_10.csv", callCount := 1 }

/-- A subscriber whose channel is already broken. -/
def brokenSub : Subscriber := { id := 0, broken := true, inbox := [] }

/-- A healthy subscriber with an empty inbox. -/
def healthySub : Subscriber := { id := 1, broken := false, inbox := [] }

/-- A registry holding the `"temp"` sensor, not yet configured. -/
def regState1 : WState :=
  { sensors := [tempRegSensor], configured := false, boundEndpoints := 0,
    activeConnections := [], fs := [("data/temp_42.csv", ["timestamp,c"])] }

/-- A configured state with the `"temp"` sensor and one healthy subscriber. -/
def c1State : WState :=
  { sensors := [tempRegSensor], configured := true, boundEndpoints := 1,
    activeConnections := [healthySub], fs := [("data/temp_42.csv", ["timestamp,c"])] }

/-- A configured state whose connection set is iterated with the broken
subscriber first and the healthy one second. -/
def c2State : WState :=
  { sensors := [tempRegSensor], configured := true, boundEndpoints := 1,
    activeConnections := [brokenSub, healthySub],
    fs := [("data/temp_42.csv", ["timestamp,c"])] }

/-- A configured state with the `flipReader` sensor. -/
def flipState : WState :=
  { sensors := [flipSensor], configured := true, boundEndpoints := 1,
    activeConnections := [], fs := [("d/s_10.csv", ["timestamp,a,b"])] }

/-- A configured state with the `"temp"` sensor and two logged readings. -/
def httpState : WState :=
  { sensors := [tempRegSensor], configured := true, boundEndpoints := 1,
    activeConnections := [], fs := [("data/temp_42.csv", ["timestamp,c", "50,21"])] }

/-- An unconfigured state with the `"temp"` sensor. -/
def unconfState : WState :=
  { sensors := [tempRegSensor], configured := false, boundEndpoints := 0,
    activeConnections := [], fs := [("data/temp_42.csv", ["timestamp,c"])] }

/-! Helper lemmas about the model's operations. -/

/-- When every connected subscriber is healthy, `_broadcast` appends the
message to every inbox, in order, and raises nothing. -/
theorem broadcastGo_healthy (l : List Subscriber) (m : String)
    (h : ∀ sub ∈ l, sub.broken = false) :
    broadcastGo l m = (l.map (fun sub => { sub with inbox := sub.inbox ++ [m] }), false) := by
  induction l with
  | nil => rfl
  | cons x xs ih =>
    have hx : x.broken = false := h x (by simp)
    have ih' := ih (fun s hs => h s (List.mem_cons_of_mem _ hs))
    simp [broadcastGo, hx, ih']

/-- Reading back a file after an append sees the old rows plus the new one. -/
theorem fsRead_fsAppend_self (fs : FS) (p : String) (row : String) (rows : List String)
    (h : fsRead fs p = some rows) :
    fsRead (fsAppend fs p row) p = some (rows ++ [row]) := by
  induction fs with
  | nil => simp [fsRead] at h
  | cons e rest ih =>
    obtain ⟨q, r⟩ := e
    by_cases hq : q = p
    · subst hq
      simp [fsRead] at h
      simp [fsAppend, fsRead, h]
    · simp [fsRead, hq] at h
      simp [fsAppend, fsRead, hq, ih h]

/-- Writing to a path that is not yet a file creates exactly one new file. -/
theorem fsWrite_fresh (fs : FS) (p : String) (rows : List String)
    (h : ∀ e ∈ fs, e.1 ≠ p) :
    fsWrite fs p rows = fs ++ [(p, rows)] := by
  induction fs with
  | nil => rfl
  | cons e rest ih =>
    obtain ⟨q, r⟩ := e
    have hq : q ≠ p := h (q, r) (by simp)
    simp [fsWrite, hq, ih (fun x hx => h x (List.mem_cons_of_mem _ hx))]

/-- Registration with an already-registered name raises the duplicate-name
`ValueError` and leaves the state untouched. -/
theorem init_dup_eq (st : WState) (name : String) (reader : Nat → ReaderResult)
    (basePath : String) (now : Nat)
    (hdup : ∃ s ∈ st.sensors, s.name = name) :
    init st name reader basePath now = (st, some .duplicateName) := by
  have hany : st.sensors.any (fun s => s.name == name) = true := by
    obtain ⟨s, hs, hn⟩ := hdup
    exact List.any_eq_true.2 ⟨s, hs, by simp [hn]⟩
  simp [init, hany]

/-- Registration of a fresh, validly named sensor whose reader's first
invocation yields an empty mapping or a non-mapping raises the
invalid-reading `ValueError`, leaving the partially initialized instance
(with no `csv_file_path`) in the registry and the file system untouched. -/
theorem init_invalid_eq (st : WState) (name : String) (reader : Nat → ReaderResult)
    (basePath : String) (now : Nat)
    (hdup : ∀ s ∈ st.sensors, s.name ≠ name)
    (hname : ∀ c ∈ name.toList, c ≠ '\n' ∧ c ≠ '\r')
    (hread : reader 0 = .mapping [] ∨ reader 0 = .nonMapping) :
    init st name reader basePath now =
      ({ st with sensors := st.sensors ++
          [{ name := name, reader := reader, baseFilePath := basePath,
             csvFilePath := none, callCount := 1 }] }, some .invalidReading) := by
  have hany : st.sensors.any (fun s => s.name == name) = false := by
    rw [List.any_eq_false]
    intro s hs
    simp only [beq_iff_eq]
    exact hdup s hs
  have hch : name.toList.any (fun c => c == '\n' || c == '\r') = false := by
    rw [List.any_eq_false]
    intro c hc
    simp only [Bool.or_eq_true, beq_iff_eq, not_or]
    exact hname c hc
  rcases hread with h | h <;> simp only [init, hany, hch, h] <;> simp

/-- Registration of a fresh, validly named sensor whose reader's first
invocation yields a non-empty mapping succeeds: the fully initialized
instance joins the registry and the log file is written at the
`splitext`-derived path with its header row. -/
theorem init_valid_eq (st : WState) (name : String) (reader : Nat → ReaderResult)
    (basePath : String) (now : Nat) (es : List (String × PyVal))
    (hdup : ∀ s ∈ st.sensors, s.name ≠ name)
    (hname : ∀ c ∈ name.toList, c ≠ '\n' ∧ c ≠ '\r')
    (hread : reader 0 = .mapping es) (hes : es ≠ []) :
    init st name reader basePath now =
      ({ st with
           sensors := st.sensors ++
             [{ name := name, reader := reader, baseFilePath := basePath,
                csvFilePath := some ((splitext basePath).1 ++ "_" ++ toString now ++ (splitext basePath).2),
                callCount := 1 }],
           fs := fsWrite st.fs
             ((splitext basePath).1 ++ "_" ++ toString now ++ (splitext basePath).2)
             [csvRow ("timestamp" :: es.map (fun kv => kv.1))] }, none) := by
  have hany : st.sensors.any (fun s => s.name == name) = false := by
    rw [List.any_eq_false]
    intro s hs
    simp only [beq_iff_eq]
    exact hdup s hs
  have hch : name.toList.any (fun c => c == '\n' || c == '\r') = false := by
    rw [List.any_eq_false]
    intro c hc
    simp only [Bool.or_eq_true, beq_iff_eq, not_or]
    exact hname c hc
  have hempty : es.isEmpty = false := by cases es <;> simp_all
  simp only [init, hany, hch, hread, hempty]
  simp

/-- A configured `execute` call whose reading is a non-empty mapping:
bumps the sensor's invocation counter, appends the row
`[timestamp] + list(data.values())` to the log file, runs `_broadcast` on
the serialized payload, and returns the payload unless the broadcast
raised. -/
theorem execute_success_eq (st : WState) (i now : Nat) (s : Sensor)
    (es : List (String × PyVal)) (fp : String)
    (hcfg : st.configured = true)
    (hs : st.sensors[i]? = some s)
    (hread : s.reader s.callCount = .mapping es) (hes : es ≠ [])
    (hfp : s.csvFilePath = some fp) :
    execute st i now =
      ({ st with
           sensors := st.sensors.set i { s with callCount := s.callCount + 1 },
           fs := fsAppend st.fs fp (csvRow (toString now :: es.map (fun kv => pyStr kv.2))),
           activeConnections := (broadcastGo st.activeConnections (jsonDumpsPayload s.name es)).1 },
       if (broadcastGo st.activeConnections (jsonDumpsPayload s.name es)).2 then
         .error .sendFailed
       else .ok (jsonDumpsPayload s.name es)) := by
  have hempty : es.isEmpty = false := by cases es <;> simp_all
  simp [execute, hcfg, hs, hread, hempty, hfp]
  split <;> simp

/-- No sensor in the registry has the requested name: the list
comprehension of `_handle_http_request` evaluates to the empty list. -/
theorem collectPaths_not_found (n : String) (l : List Sensor)
    (h : ∀ s ∈ l, s.name ≠ n) : collectPaths n l = .ok [] := by
  induction l with
  | nil => rfl
  | cons x xs ih =>
    have hx : x.name ≠ n := h x (by simp)
    simp [collectPaths, hx, ih (fun s hs => h s (List.mem_cons_of_mem _ hs))]

/-- With every registry member fully initialized, the list comprehension
of `_handle_http_request` raises nothing. -/
theorem collectPaths_ok (n : String) (l : List Sensor)
    (hw : ∀ t ∈ l, t.csvFilePath ≠ none) : ∃ ps, collectPaths n l = .ok ps := by
  induction l with
  | nil => exact ⟨[], rfl⟩
  | cons x xs ih =>
    obtain ⟨ps, hps⟩ := ih (fun t ht => hw t (List.mem_cons_of_mem _ ht))
    by_cases hx : x.name = n
    · cases hcv : x.csvFilePath with
      | none => exact absurd hcv (hw x (by simp))
      | some fp => exact ⟨fp :: ps, by simp [collectPaths, hx, hcv, hps]⟩
    · exact ⟨ps, by simp [collectPaths, hx, hps]⟩

/-- The head of the list comprehension's result is the `csv_file_path` of
the first registry member with the requested name. -/
theorem collectPaths_found (n : String) (l : List Sensor) (s : Sensor) (fp : String)
    (hw : ∀ t ∈ l, t.csvFilePath ≠ none)
    (hfind : l.find? (fun t => t.name == n) = some s)
    (hfp : s.csvFilePath = some fp) :
    ∃ rest, collectPaths n l = .ok (fp :: rest) := by
  induction l with
  | nil => simp at hfind
  | cons x xs ih =>
    by_cases hx : x.name = n
    · have hxb : (x.name == n) = true := by simp [hx]
      have hxs : x = s := by
        rw [List.find?_cons_of_pos (p := fun t : Sensor => t.name == n) _ hxb] at hfind
        exact Option.some.inj hfind
      subst hxs
      obtain ⟨ps, hps⟩ := collectPaths_ok n xs (fun t ht => hw t (List.mem_cons_of_mem _ ht))
      exact ⟨ps, by simp [collectPaths, hx, hfp, hps]⟩
    · have hxb : (x.name == n) = false := by simp [hx]
      rw [List.find?_cons_of_neg (p := fun t : Sensor => t.name == n) _ (by simp [hxb])] at hfind
      obtain ⟨rest, hrest⟩ := ih (fun t ht => hw t (List.mem_cons_of_mem _ ht)) hfind
      exact ⟨rest, by simp [collectPaths, hx, hrest]⟩

end Wiresense

namespace Wiresense

/-! Claim theorems. -/

/-- C1: for every configured state and every sensor whose reader returns a
non-empty flat mapping, `execute` invokes the reader once (the invocation
counter advances by exactly one and the reading used is the one at the old
counter), appends one row `[current unix timestamp] + the reading's
values` to the sensor's CSV file, sends the serialized payload
`{"key": name, "data": reading}` to every current subscriber, and returns
that serialization. -/
theorem execute_success_delivers (st : WState) (i now : Nat) (s : Sensor)
    (es : List (String × PyVal)) (fp : String) (rows : List String)
    (hcfg : st.configured = true)
    (hs : st.sensors[i]? = some s)
    (hread : s.reader s.callCount = .mapping es) (hes : es ≠ [])
    (hfp : s.csvFilePath = some fp)
    (hfile : fsRead st.fs fp = some rows)
    (hsubs : ∀ sub ∈ st.activeConnections, sub.broken = false) :
    (execute st i now).2 = .ok (jsonDumpsPayload s.name es) ∧
    (execute st i now).1.sensors[i]? = some { s with callCount := s.callCount + 1 } ∧
    fsRead (execute st i now).1.fs fp =
      some (rows ++ [csvRow (toString now :: es.map (fun kv => pyStr kv.2))]) ∧
    (execute st i now).1.activeConnections =
      st.activeConnections.map
        (fun sub => { sub with inbox := sub.inbox ++ [jsonDumpsPayload s.name es] }) := by
  have hlt : i < st.sensors.length := (List.getElem?_eq_some.1 hs).1
  rw [execute_success_eq st i now s es fp hcfg hs hread hes hfp,
      broadcastGo_healthy _ _ hsubs]
  refine ⟨rfl, ?_, ?_, rfl⟩
  · exact List.getElem?_set_eq_of_lt _ hlt
  · exact fsRead_fsAppend_self _ _ _ _ hfile

/-- Witness for C1: the `"temp"` sensor in a configured state with one
healthy subscriber, executed at time 100, returns and delivers the payload
whose text is exactly the serialization of the key/data object. -/
theorem execute_success_delivers_witness :
    c1State.configured = true ∧
    (∀ sub ∈ c1State.activeConnections, sub.broken = false) ∧
    ((execute c1State 0 100).2 = .ok (jsonDumpsPayload tempRegSensor.name [("c", PyVal.i 22)]) ∧
     (execute c1State 0 100).1.sensors[0]? =
       some { tempRegSensor with callCount := tempRegSensor.callCount + 1 } ∧
     fsRead (execute c1State 0 100).1.fs "data/temp_42.csv" =
       some (["timestamp,c"] ++ [csvRow (toString 100 :: [("c", PyVal.i 22)].map (fun kv => pyStr kv.2))]) ∧
     (execute c1State 0 100).1.activeConnections =
       c1State.activeConnections.map
         (fun sub => { sub with inbox := sub.inbox ++ [jsonDumpsPayload tempRegSensor.name [("c", PyVal.i 22)]] })) ∧
    jsonDumpsPayload "temp" [("c", PyVal.i 22)] = "\x7b\"key\": \"temp\", \"data\": \x7b\"c\": 22\x7d\x7d" :=
  ⟨rfl, by decide,
   execute_success_delivers c1State 0 100 tempRegSensor [("c", PyVal.i 22)] "data/temp_42.csv"
     ["timestamp,c"] rfl rfl rfl (by decide) rfl rfl (by decide),
   by decide⟩

/-- C2 counterexample: with the broken subscriber iterated first and a
healthy one second, one `execute` call raises out of `_broadcast`: the
healthy subscriber receives nothing (its inbox stays empty) and the
failing subscriber is not removed from the connection set. -/
theorem broadcast_failure_counterexample :
    (execute c2State 0 100).2 = .error .sendFailed ∧
    (execute c2State 0 100).1.activeConnections = [brokenSub, healthySub] ∧
    healthySub.inbox = [] := by decide

/-- C2 amended: when `_broadcast` iterates the connection set and the send
to subscriber `b` fails, the subscribers iterated before `b` have received
the payload, the subscribers after `b` have not, no subscriber is removed
from the set, and the exception propagates to the caller. -/
theorem broadcast_failure_aborts_delivery (pre post : List Subscriber) (b : Subscriber)
    (m : String)
    (hpre : ∀ sub ∈ pre, sub.broken = false) (hb : b.broken = true) :
    broadcastGo (pre ++ b :: post) m =
      (pre.map (fun sub => { sub with inbox := sub.inbox ++ [m] }) ++ b :: post, true) := by
  induction pre with
  | nil => simp [broadcastGo, hb]
  | cons x xs ih =>
    have hx : x.broken = false := hpre x (by simp)
    have ih' := ih (fun s hs => hpre s (List.mem_cons_of_mem _ hs))
    simp [broadcastGo, hx, ih']

/-- Witness for the amended C2: iterating a healthy subscriber first and
the broken one second, the healthy one receives the message, the broadcast
then raises, and the broken subscriber stays in the set. -/
theorem broadcast_failure_aborts_delivery_witness :
    (∀ sub ∈ [healthySub], sub.broken = false) ∧ brokenSub.broken = true ∧
    broadcastGo ([healthySub] ++ brokenSub :: []) "m" =
      ([healthySub].map (fun sub => { sub with inbox := sub.inbox ++ ["m"] }) ++ brokenSub :: [], true) :=
  ⟨by decide, rfl,
   broadcast_failure_aborts_delivery [healthySub] [] brokenSub "m" (by decide) rfl⟩

/-- C3: registering a fresh, validly named sensor whose reader returns an
empty mapping (or a non-mapping value) on its immediate first invocation
fails with the invalid-reading error, and no log file is created: the file
system is unchanged. -/
theorem register_empty_reading_fails_no_file (st : WState) (name : String)
    (reader : Nat → ReaderResult) (basePath : String) (now : Nat)
    (hdup : ∀ s ∈ st.sensors, s.name ≠ name)
    (hname : ∀ c ∈ name.toList, c ≠ '\n' ∧ c ≠ '\r')
    (hread : reader 0 = .mapping [] ∨ reader 0 = .nonMapping) :
    (init st name reader basePath now).2 = some .invalidReading ∧
    (init st name reader basePath now).1.fs = st.fs := by
  rw [init_invalid_eq st name reader basePath now hdup hname hread]
  exact ⟨rfl, rfl⟩

/-- Witness for C3: registering `"temp"` with a reader returning `{}` on
the empty state fails with the invalid-reading error and creates no file. -/
theorem register_empty_reading_fails_no_file_witness :
    (∀ s ∈ emptyState.sensors, s.name ≠ "temp") ∧
    ((init emptyState "temp" emptyReader "data/temp.csv" 42).2 = some .invalidReading ∧
     (init emptyState "temp" emptyReader "data/temp.csv" 42).1.fs = emptyState.fs) :=
  ⟨by simp [emptyState],
   register_empty_reading_fails_no_file emptyState "temp" emptyReader "data/temp.csv" 42
     (by simp [emptyState]) (by decide) (Or.inl rfl)⟩

/-- C4: a registration whose reader validation fails leaves the partially
initialized sensor (with no `csv_file_path`) in the registry, because the
append to `Wiresense.sensors` precedes the validation; a subsequent
registration reusing the same name therefore fails with the
duplicate-name error even though no sensor was successfully created under
that name. -/
theorem register_failure_pollutes_registry (st : WState) (name : String)
    (reader reader2 : Nat → ReaderResult) (basePath basePath2 : String) (now now2 : Nat)
    (hdup : ∀ s ∈ st.sensors, s.name ≠ name)
    (hname : ∀ c ∈ name.toList, c ≠ '\n' ∧ c ≠ '\r')
    (hread : reader 0 = .mapping [] ∨ reader 0 = .nonMapping) :
    (init st name reader basePath now).2 = some .invalidReading ∧
    (∃ s ∈ (init st name reader basePath now).1.sensors,
        s.name = name ∧ s.csvFilePath = none) ∧
    init (init st name reader basePath now).1 name reader2 basePath2 now2 =
      ((init st name reader basePath now).1, some .duplicateName) := by
  rw [init_invalid_eq st name reader basePath now hdup hname hread]
  refine ⟨rfl,
    ⟨{ name := name, reader := reader, baseFilePath := basePath,
       csvFilePath := none, callCount := 1 }, ?_, rfl, rfl⟩, ?_⟩
  · simp
  · exact init_dup_eq _ name reader2 basePath2 now2
      ⟨{ name := name, reader := reader, baseFilePath := basePath,
         csvFilePath := none, callCount := 1 }, by simp, rfl⟩

/-- Witness for C4: after the failed registration of `"temp"` with a
reader returning `{}`, the name is occupied and a second registration of
`"temp"` fails with the duplicate-name error. -/
theorem register_failure_pollutes_registry_witness :
    (∀ s ∈ emptyState.sensors, s.name ≠ "temp") ∧
    ((init emptyState "temp" emptyReader "data/temp.csv" 42).2 = some .invalidReading ∧
     (∃ s ∈ (init emptyState "temp" emptyReader "data/temp.csv" 42).1.sensors,
         s.name = "temp" ∧ s.csvFilePath = none) ∧
     init (init emptyState "temp" emptyReader "data/temp.csv" 42).1 "temp" tReader "d/t.csv" 50 =
       ((init emptyState "temp" emptyReader "data/temp.csv" 42).1, some .duplicateName)) :=
  ⟨by simp [emptyState],
   register_failure_pollutes_registry emptyState "temp" emptyReader tReader
     "data/temp.csv" "d/t.csv" 42 50 (by simp [emptyState]) (by decide) (Or.inl rfl)⟩

/-- C5 counterexample: the `"flip"` sensor was created with first reading
`{"a": 1, "b": 2}` (fixed column order `a,b`); an `execute` whose reading
is `{"b": 5, "a": 4}` appends the row `7,5,4` — the reading's own key
order — not the row `7,4,5` that the sensor's fixed column order would
dictate. -/
theorem execute_row_column_order_counterexample :
    fsRead (execute flipState 0 7).1.fs "d/s_10.csv" = some ["timestamp,a,b", "7,5,4"] ∧
    fsRead (execute flipState 0 7).1.fs "d/s_10.csv" ≠ some ["timestamp,a,b", "7,4,5"] := by
  decide

/-- C5 amended: the appended log row is `[timestamp] + list(data.values())`
— the current reading's values in the reading's own key (insertion) order;
the column names recorded at creation are used only for the header row and
are not consulted when a row is appended. -/
theorem execute_row_follows_reading_order (st : WState) (i now : Nat) (s : Sensor)
    (es : List (String × PyVal)) (fp : String) (rows : List String)
    (hcfg : st.configured = true)
    (hs : st.sensors[i]? = some s)
    (hread : s.reader s.callCount = .mapping es) (hes : es ≠ [])
    (hfp : s.csvFilePath = some fp)
    (hfile : fsRead st.fs fp = some rows) :
    fsRead (execute st i now).1.fs fp =
      some (rows ++ [csvRow (toString now :: es.map (fun kv => pyStr kv.2))]) := by
  rw [execute_success_eq st i now s es fp hcfg hs hread hes hfp]
  exact fsRead_fsAppend_self _ _ _ _ hfile

/-- Witness for the amended C5: the `"flip"` sensor's row at time 7 holds
the values `5, 4` of the reading `{"b": 5, "a": 4}` in that order. -/
theorem execute_row_follows_reading_order_witness :
    flipState.configured = true ∧
    fsRead (execute flipState 0 7).1.fs "d/s_10.csv" =
      some (["timestamp,a,b"] ++
        [csvRow (toString 7 :: [("b", PyVal.i 5), ("a", PyVal.i 4)].map (fun kv => pyStr kv.2))]) :=
  ⟨rfl,
   execute_row_follows_reading_order flipState 0 7 flipSensor
     [("b", PyVal.i 5), ("a", PyVal.i 4)] "d/s_10.csv" ["timestamp,a,b"]
     rfl rfl rfl (by decide) rfl rfl⟩

/-- C6: a registration whose name some registry member already bears fails
with the duplicate-name error, and the whole state — in particular the
registry and its size — is unchanged by the call. -/
theorem register_duplicate_name_fails (st : WState) (name : String)
    (reader : Nat → ReaderResult) (basePath : String) (now : Nat)
    (hdup : ∃ s ∈ st.sensors, s.name = name) :
    init st name reader basePath now = (st, some .duplicateName) :=
  init_dup_eq st name reader basePath now hdup

/-- Witness for C6: re-registering `"temp"` in a registry of size 1 fails
with the duplicate-name error and the registry size remains 1. -/
theorem register_duplicate_name_fails_witness :
    (∃ s ∈ regState1.sensors, s.name = "temp") ∧
    init regState1 "temp" emptyReader "other/t.csv" 50 = (regState1, some .duplicateName) ∧
    regState1.sensors.length = 1 :=
  ⟨⟨tempRegSensor, by simp [regState1], rfl⟩,
   register_duplicate_name_fails regState1 "temp" emptyReader "other/t.csv" 50
     ⟨tempRegSensor, by simp [regState1], rfl⟩,
   rfl⟩

/-- C9: for every sensor handle and time, calling `execute` while the
process-wide configured flag is false fails with the not-configured
`RuntimeError`, and the state is unchanged: no reading is taken (no
invocation counter advances), no log row is written, nothing is broadcast. -/
theorem execute_unconfigured_fails (st : WState) (i now : Nat)
    (h : st.configured = false) :
    execute st i now = (st, .error .notConfigured) := by
  simp [execute, h]

/-- Witness for C9: executing the `"temp"` sensor in an unconfigured state
fails with the not-configured error and leaves the state untouched. -/
theorem execute_unconfigured_fails_witness :
    unconfState.configured = false ∧
    execute unconfState 0 100 = (unconfState, .error .notConfigured) :=
  ⟨rfl, execute_unconfigured_fails unconfState 0 100 rfl⟩

/-- C8: `configure` is idempotent — from an unconfigured state with no
bound endpoint, the first call binds exactly one listening endpoint and
sets the configured flag only after the endpoint is bound (the event trace
is bind-then-flag); a second call is a no-op that only logs. -/
theorem config_idempotent (st : WState)
    (hflag : st.configured = false) (hbound : st.boundEndpoints = 0) :
    (config st).1.configured = true ∧
    (config st).1.boundEndpoints = 1 ∧
    (config st).2 = [ServerEvent.bindEndpoint, ServerEvent.setConfiguredFlag] ∧
    config (config st).1 = ((config st).1, [ServerEvent.logAlreadyConfigured]) := by
  simp [config, hflag, hbound]

/-- Witness for C8: configuring the empty state twice yields exactly one
bound endpoint and a logged no-op on the second call. -/
theorem config_idempotent_witness :
    emptyState.configured = false ∧ emptyState.boundEndpoints = 0 ∧
    ((config emptyState).1.configured = true ∧
     (config emptyState).1.boundEndpoints = 1 ∧
     (config emptyState).2 = [ServerEvent.bindEndpoint, ServerEvent.setConfiguredFlag] ∧
     config (config emptyState).1 = ((config emptyState).1, [ServerEvent.logAlreadyConfigured])) :=
  ⟨rfl, rfl, config_idempotent emptyState rfl rfl⟩

/-- C10: a successful registration creates exactly one CSV file, at the
path formed from the base path with its extension removed, an underscore,
the creation unix timestamp, and the original extension, whose single
line is the header row `timestamp` followed by the first reading's keys in
their original order. -/
theorem register_creates_log_with_header (st : WState) (name : String)
    (reader : Nat → ReaderResult) (basePath : String) (now : Nat)
    (es : List (String × PyVal))
    (hdup : ∀ s ∈ st.sensors, s.name ≠ name)
    (hname : ∀ c ∈ name.toList, c ≠ '\n' ∧ c ≠ '\r')
    (hread : reader 0 = .mapping es) (hes : es ≠ [])
    (hfresh : ∀ e ∈ st.fs,
      e.1 ≠ (splitext basePath).1 ++ "_" ++ toString now ++ (splitext basePath).2) :
    (init st name reader basePath now).2 = none ∧
    (init st name reader basePath now).1.fs =
      st.fs ++ [((splitext basePath).1 ++ "_" ++ toString now ++ (splitext basePath).2,
                 [csvRow ("timestamp" :: es.map (fun kv => kv.1))])] := by
  rw [init_valid_eq st name reader basePath now es hdup hname hread hes]
  exact ⟨rfl, fsWrite_fresh _ _ _ hfresh⟩

/-- Witness for C10: registering `"temp"` with base path `data/temp.csv`
at creation time 42 and first reading `{"c": 21}` creates exactly the file
`data/temp_42.csv` whose first line is `timestamp,c`. -/
theorem register_creates_log_with_header_witness :
    ((init emptyState "temp" tReader "data/temp.csv" 42).2 = none ∧
     (init emptyState "temp" tReader "data/temp.csv" 42).1.fs =
       emptyState.fs ++
         [((splitext "data/temp.csv").1 ++ "_" ++ toString 42 ++ (splitext "data/temp.csv").2,
           [csvRow ("timestamp" :: [("c", PyVal.i 21)].map (fun kv => kv.1))])]) ∧
    (splitext "data/temp.csv").1 ++ "_" ++ toString 42 ++ (splitext "data/temp.csv").2 =
      "data/temp_42.csv" ∧
    csvRow ("timestamp" :: [("c", PyVal.i 21)].map (fun kv => kv.1)) = "timestamp,c" :=
  ⟨register_creates_log_with_header emptyState "temp" tReader "data/temp.csv" 42
     [("c", PyVal.i 21)] (by simp [emptyState]) (by decide) rfl (by decide)
     (by simp [emptyState]),
   by decide, by decide⟩

end Wiresense

namespace Wiresense

/-- C7: routing of an inbound GET request, with raw carriage-return and
line-feed escaped before matching. If the escaped path splits into exactly
`<name>/data.csv` and the first registered sensor with that name has its
log file on storage, the response is 200 with the file's content and
content type `text/csv`; if no registered sensor has that name, or the
escaped path does not match the pattern, the response is 404; if the
sensor is found but its log file is missing from storage, the response is
500. The hypotheses restrict to registries of fully initialized sensors
(every member has a non-empty `csv_file_path`), which every successful
registration produces. -/
theorem handle_http_request_routes (st : WState) (path : String)
    (hfull : ∀ s ∈ st.sensors, s.csvFilePath ≠ none)
    (hne : ∀ s ∈ st.sensors, s.csvFilePath ≠ some "") :
    (∀ n tl, splitChar '/' (escapePathChars path.toList) = [n, tl] →
      String.mk tl = "data.csv" →
        ((∀ s ∈ st.sensors, s.name ≠ String.mk n) →
            handleHttpRequest st path = .notFound) ∧
        (∀ s fp rows,
            st.sensors.find? (fun t => t.name == String.mk n) = some s →
            s.csvFilePath = some fp → fsRead st.fs fp = some rows →
            handleHttpRequest st path = .ok "text/csv" rows) ∧
        (∀ s fp,
            st.sensors.find? (fun t => t.name == String.mk n) = some s →
            s.csvFilePath = some fp → fsRead st.fs fp = none →
            handleHttpRequest st path = .internalError)) ∧
    ((∀ n tl, splitChar '/' (escapePathChars path.toList) = [n, tl] →
        String.mk tl ≠ "data.csv") →
      handleHttpRequest st path = .notFound) := by
  constructor
  · intro n tl hsplit htl
    have hsplit2 : splitChar '/' (escapePathChars path.data) = [n, tl] := hsplit
    refine ⟨?_, ?_, ?_⟩
    · intro hnone
      have hcp : collectPaths (String.mk n) st.sensors = .ok [] :=
        collectPaths_not_found _ _ hnone
      simp [handleHttpRequest, hsplit2, htl, hcp]
    · intro s fp rows hfind hfp hrows
      obtain ⟨rest, hcp⟩ := collectPaths_found (String.mk n) st.sensors s fp hfull hfind hfp
      have hmem : s ∈ st.sensors := List.mem_of_find?_eq_some hfind
      have hfpne : fp ≠ "" := by
        intro hemp
        exact hne s hmem (hemp ▸ hfp)
      simp [handleHttpRequest, hsplit2, htl, hcp, hfpne, hrows]
    · intro s fp hfind hfp hrows
      obtain ⟨rest, hcp⟩ := collectPaths_found (String.mk n) st.sensors s fp hfull hfind hfp
      have hmem : s ∈ st.sensors := List.mem_of_find?_eq_some hfind
      have hfpne : fp ≠ "" := by
        intro hemp
        exact hne s hmem (hemp ▸ hfp)
      simp [handleHttpRequest, hsplit2, htl, hcp, hfpne, hrows]
  · intro hnm
    cases hsp : splitChar '/' (escapePathChars path.data) with
    | nil => simp [handleHttpRequest, hsp]
    | cons n rest =>
      cases rest with
      | nil => simp [handleHttpRequest, hsp]
      | cons tl rest2 =>
        cases rest2 with
        | nil =>
          have hne2 : String.mk tl ≠ "data.csv" := hnm n tl hsp
          simp [handleHttpRequest, hsp, hne2]
        | cons u rest3 => simp [handleHttpRequest, hsp]

/-- Witness for C7: on a registry with the `"temp"` sensor and its file on
storage, `GET temp/data.csv` serves the file as `text/csv`,
`GET unknown/data.csv` is 404, and a three-segment path is 404. -/
theorem handle_http_request_routes_witness :
    handleHttpRequest httpState "temp/data.csv" = .ok "text/csv" ["timestamp,c", "50,21"] ∧
    handleHttpRequest httpState "unknown/data.csv" = .notFound ∧
    handleHttpRequest httpState "temp/data.csv/extra" = .notFound := by
  refine ⟨?_, ?_, ?_⟩
  · exact ((handle_http_request_routes httpState "temp/data.csv"
        (by decide) (by decide)).1
      "temp".toList "data.csv".toList (by decide) rfl).2.1
      tempRegSensor "data/temp_42.csv" ["timestamp,c", "50,21"] rfl rfl rfl
  · exact ((handle_http_request_routes httpState "unknown/data.csv"
        (by decide) (by decide)).1
      "unknown".toList "data.csv".toList (by decide) rfl).1 (by decide)
  · refine (handle_http_request_routes httpState "temp/data.csv/extra"
        (by decide) (by decide)).2 ?_
    intro n tl h
    rw [show splitChar '/' (escapePathChars "temp/data.csv/extra".toList) =
        ["temp".toList, "data.csv".toList, "extra".toList] from by decide] at h
    simp at h

end Wiresense
